import Mathlib

/-!
Verification development for the wine-vision repository.

The repository is a small web application with two collaborators:
an analysis route handler (function POST in src/app/api/analyze/route.ts)
that runs a two stage model pipeline with an optional web search, and a
client page (src/app/page.tsx) that submits one image and renders the
returned record, with React render semantics modelled where they decide
what the viewer sees.

This file gives a shallow embedding of both in Lean.  JavaScript values
produced by JSON.parse are modelled by the mutual inductive type `Json`;
the external collaborators (the model service, the search service and
JSON.parse itself, all of which live outside the repository) are modelled
as explicit parameters: an `Oracle` of responses and a `parse` function.
Stateful route code becomes a pure function from the request, the
environment and the oracle to the response.  Functions keep the names of
the source where Lean allows it.
-/

namespace WineVision

/-! ## JavaScript value model -/

mutual
/-- Model of a JavaScript value as produced by JSON.parse: null, booleans,
numbers (integral only, which is all the claims need), strings, arrays and
objects.  Arrays and object field lists are mutual inductives rather than
`List` so that every function below is structurally recursive and reduces
inside the kernel. -/
inductive Json where
  | null
  | bool (b : Bool)
  | num (n : Int)
  | str (s : String)
  | arr (elems : JsonList)
  | obj (fields : JsonObj)
inductive JsonList where
  | nil
  | cons (head : Json) (tail : JsonList)
inductive JsonObj where
  | nil
  | cons (key : String) (value : Json) (tail : JsonObj)
end

/-- Converts a Lean list of values into a `JsonList`. -/
def jlist : List Json → JsonList
  | [] => .nil
  | x :: xs => .cons x (jlist xs)

/-- Converts a Lean list of key value pairs into a `JsonObj`. -/
def jfields : List (String × Json) → JsonObj
  | [] => .nil
  | (k, v) :: xs => .cons k v (jfields xs)

/-- Length of a `JsonList`. -/
def jlistLen : JsonList → Nat
  | .nil => 0
  | .cons _ xs => jlistLen xs + 1

/-- Property lookup on an object field list: the first binding of the key,
as JavaScript property access on a parsed object.  `none` models the
JavaScript undefined. -/
def jsonLookup : JsonObj → String → Option Json
  | .nil, _ => none
  | .cons k v rest, key => if k = key then some v else jsonLookup rest key

/-- Property assignment on an object field list: overwrites the first
binding of the key in place, or appends a new binding at the end, as a
JavaScript property write on a plain object. -/
def jsonSet : JsonObj → String → Json → JsonObj
  | .nil, key, v => .cons key v .nil
  | .cons k w rest, key, v =>
      if k = key then .cons key v rest else .cons k w (jsonSet rest key v)

/-- JavaScript truthiness: null, false, 0 and the empty string are falsy;
every other value, in particular every array and object, is truthy. -/
def jsTruthy : Json → Bool
  | .null => false
  | .bool b => b
  | .num n => n != 0
  | .str s => s != ""
  | .arr _ => true
  | .obj _ => true

mutual
/-- JavaScript ToString coercion (the String(v) call and template literal
interpolation): null prints as null, numbers in decimal, arrays join their
elements with commas, plain objects print as [object Object]. -/
def jsString : Json → String
  | .null => ("null")
  | .bool true => ("true")
  | .bool false => ("false")
  | .num n => toString n
  | .str s => s
  | .arr xs => jsStringElems xs true
  | .obj _ => ("[object Object]")
/-- Array join: elements separated by commas; `isFirst` tracks whether a
separator is due.  A null element prints as the empty string, as in
JavaScript Array.prototype.join. -/
def jsStringElems : JsonList → Bool → String
  | .nil, _ => ""
  | .cons x rest, isFirst =>
      (if isFirst then ("") else (",")) ++ jsStringElem x ++ jsStringElems rest false
/-- Element coercion inside an array join: null becomes the empty string,
anything else coerces as at top level. -/
def jsStringElem : Json → String
  | .null => ""
  | .bool true => ("true")
  | .bool false => ("false")
  | .num n => toString n
  | .str s => s
  | .arr xs => jsStringElems xs true
  | .obj _ => ("[object Object]")
termination_by structural j => j
end

/-! ## String helpers modelling the JavaScript string operations -/

/-- Whitespace recognised by the JavaScript String.prototype.trim on the
inputs this pipeline sees: space, tab, newline, carriage return, vertical
tab and form feed. -/
def isJsSpace (c : Char) : Bool :=
  c == ' ' || c == '\t' || c == '\n' || c == '\r' || c == '\x0b' || c == '\x0c'

/-- Character list form of trim: drops leading and trailing whitespace. -/
def jsTrimChars (cs : List Char) : List Char :=
  ((cs.dropWhile isJsSpace).reverse.dropWhile isJsSpace).reverse

/-- Model of the JavaScript String.prototype.trim. -/
def jsTrim (s : String) : String :=
  String.mk (jsTrimChars s.data)

/-- Model of the JavaScript s.slice(0, n): the first n characters. -/
def jsSlice (s : String) (n : Nat) : String :=
  String.mk (s.data.take n)

/-- Lower cases every character, modelling case insensitive regular
expression matching on ASCII text. -/
def lowerStr (s : String) : String :=
  String.mk (s.data.map Char.toLower)

/-- Whether the pattern occurs as a contiguous run inside the list. -/
def listHasRun (pat : List Char) : List Char → Bool
  | [] => pat.isEmpty
  | c :: rest => pat.isPrefixOf (c :: rest) || listHasRun pat rest

/-- Substring test, modelling an unanchored regular expression test for a
literal pattern. -/
def strContains (s pat : String) : Bool :=
  listHasRun pat.data s.data

/-- JavaScript Array.prototype.join with a one character separator, on an
already stringified list. -/
def jsJoin (sep : String) : List String → String
  | [] => ""
  | [s] => s
  | s :: t :: rest => s ++ sep ++ jsJoin sep (t :: rest)

/-! ## The analyze route (function POST in src/app/api/analyze/route.ts) -/

/-- Character level form of the first replace in stripCodeFences: the
anchored case insensitive pattern of three backticks followed by an
optional json tag, removed from the front when it matches. -/
def stripPrefixFenceChars : List Char → List Char
  | '\x60' :: '\x60' :: '\x60' :: rest =>
      match rest with
      | c1 :: c2 :: c3 :: c4 :: rest2 =>
          if c1.toLower == 'j' && c2.toLower == 's' && c3.toLower == 'o' && c4.toLower == 'n'
          then rest2 else rest
      | short => short
  | cs => cs

/-- Character level form of the second replace in stripCodeFences: three
backticks anchored at the end, removed when they match. -/
def stripSuffixFenceChars (cs : List Char) : List Char :=
  match cs.reverse with
  | '\x60' :: '\x60' :: '\x60' :: rest => rest.reverse
  | _ => cs

/-- Source function stripCodeFences: drops a leading code fence marker
(with optional json tag, case insensitive), drops a trailing code fence
marker, then trims whitespace. -/
def stripCodeFences (s : String) : String :=
  String.mk (jsTrimChars (stripSuffixFenceChars (stripPrefixFenceChars s.data)))

/-- Optional chaining step: `jsOptChain o k` models `x?.k` where `o` is
the result of the previous step (`none` standing for undefined).  Null and
undefined receivers give undefined; primitive and array receivers have no
such named property, so they give undefined too; object receivers look the
key up. -/
def jsOptChain (o : Option Json) (k : String) : Option Json :=
  match o with
  | some (.obj fs) => jsonLookup fs k
  | _ => none

/-- The six identifying label fields read by buildQueryFromLabel, in
source order, each through the optional chain on recognizedLabel. -/
def identifyingParts (label : Json) : List (Option Json) :=
  [ jsOptChain (jsOptChain (some label) ("recognizedLabel")) ("producer"),
    jsOptChain (jsOptChain (some label) ("recognizedLabel")) ("wine"),
    jsOptChain (jsOptChain (some label) ("recognizedLabel")) ("appellation"),
    jsOptChain (jsOptChain (some label) ("recognizedLabel")) ("region"),
    jsOptChain (jsOptChain (some label) ("recognizedLabel")) ("country"),
    jsOptChain (jsOptChain (some label) ("recognizedLabel")) ("vintage") ]

/-- The value of filter(Boolean) over `identifyingParts`: undefined
entries and falsy values are dropped. -/
def keptParts (label : Json) : List Json :=
  ((identifyingParts label).filterMap id).filter (fun j => jsTruthy j)

/-- The fixed retailer site list appended to the search query by
buildQueryFromLabel. -/
def priceSiteSuffix : String :=
  (" price site:wine-searcher.com OR site:thewinesociety.com OR site:berrybros.com OR site:vinatis.co.uk OR site:vinissimus.co.uk OR site:waitrose.com OR site:majestic.co.uk OR site:winemaker\x27s site")

/-- Source function buildQueryFromLabel: joins the truthy identifying
fields with spaces; empty join means no query, otherwise the price keyword
and the fixed site restricted OR list are appended. -/
def buildQueryFromLabel (label : Json) : String :=
  let parts := jsJoin (" ") ((keptParts label).map jsString)
  if parts = "" then ("") else parts ++ priceSiteSuffix

/-- One raw result from the search provider response body, before the
route normalises it: title and content may be absent. -/
structure RawResult where
  title : Option String
  url : String
  content : Option String
deriving DecidableEq, Repr

/-- One normalised evidence item as built by the route: truncated title
with a fallback, the url, and a truncated snippet. -/
structure Evidence where
  title : String
  url : String
  snippet : String
deriving DecidableEq, Repr

/-- The per result normalisation in the route: title sliced to 140
characters with fallback Result when absent or empty, content sliced to
500 characters with fallback empty. -/
def normalizeResult (r : RawResult) : Evidence :=
  { title := let t := jsSlice (r.title.getD ("")) 140
             if t = "" then ("Result") else t
    url := r.url
    snippet := jsSlice (r.content.getD ("")) 500 }

/-- The process environment read at request time: the model credential and
the optional search credential.  `none` models an unset variable. -/
structure Env where
  openaiKey : Option String
  tavilyKey : Option String

/-- JavaScript truthiness of an environment variable: set and non empty. -/
def isTruthyKey : Option String → Bool
  | none => false
  | some s => s != ""

/-- Outcome of the search provider call: the fetch or body decode throws,
the response is not ok, or it is ok with an optional results list (absent
results model a body without a results field). -/
inductive SearchOutcome where
  | throws
  | notOk
  | ok (results : Option (List RawResult))

/-- The external collaborators of one request: the stage 1 vision call and
the stage 3 grounding call either throw (left) or return an optional
message content (none standing for absent choices, message or content),
and the search call has a `SearchOutcome`. -/
structure Oracle where
  vision : Except String (Option String)
  search : SearchOutcome
  grounded : Except String (Option String)

/-- The parsed multipart form of the request: whether the image field is
present and holds a File. -/
structure FormDataModel where
  hasImageFile : Bool

/-- The route response: the 200 success envelope with the record, or one
of the three error envelopes with their payloads. -/
inductive RouteResponse where
  | ok (data : Json)
  | badRequest (error : String)
  | serverError (error : String)
  | badGateway (error : String) (raw : String)

/-- HTTP status attached to each response constructor by the route. -/
def statusCode : RouteResponse → Nat
  | .ok _ => 200
  | .badRequest _ => 400
  | .serverError _ => 500
  | .badGateway _ _ => 502

/-- The search request issued by the route when it calls the provider:
the query string and the fixed request parameters from the fetch body. -/
structure SearchRequest where
  query : String
  maxResults : Nat
  searchDepth : String
deriving DecidableEq, Repr

/-- Model response text default: content or else the empty object text,
used when the content is absent or the empty string. -/
def contentOrDefault : Option String → String
  | none => ("\x7b\x7d")
  | some s => if s = "" then ("\x7b\x7d") else s

/-- Shared parse step of stages 1 and 3: default the content, strip code
fences, then JSON.parse (the `parse` parameter). -/
def parseModelText (parse : String → Option Json) (content : Option String) : Option Json :=
  parse (stripCodeFences (contentOrDefault content))

/-- The diagnostic note appended when the grounding stage returns
unparsable JSON. -/
def degradeNoteText : String :=
  (" (Grounding step failed to parse JSON; prices may be less reliable.)")

/-- The stage 3 parse failure fallback block: back to the stage 1 record,
with `priceEstimate` defaulted to an object when absent or falsy and the
diagnostic note appended to its note field.  Property writes on null or a
primitive throw a TypeError (strict mode), modelled as the error case,
which the outer catch of the route turns into a 500; writes of named
properties on an array are allowed in JavaScript but dropped again by the
JSON serialisation of the response, so an array passes through
unchanged. -/
def fallbackNote (v : Json) : Except String Json :=
  match v with
  | .obj fs =>
      let pe0 := jsonLookup fs ("priceEstimate")
      let pe1 := match pe0 with
        | some j => if jsTruthy j then j else Json.obj .nil
        | none => Json.obj .nil
      match pe1 with
      | .obj pf =>
          let oldNote := match jsonLookup pf ("note") with
            | some j => if jsTruthy j then jsString j else ("")
            | none => ""
          let pe2 := Json.obj (jsonSet pf ("note") (.str (oldNote ++ degradeNoteText)))
          .ok (Json.obj (jsonSet fs ("priceEstimate") pe2))
      | .arr _ => .ok v
      | _ => .error ("TypeError: cannot create property on primitive")
  | .arr _ => .ok v
  | _ => .error ("TypeError: cannot create property on primitive")

/-- Builds the backfilled sources array from the first five evidence
items, as objects with title and url. -/
def sourcesJson : List Evidence → JsonList
  | [] => .nil
  | e :: rest =>
      .cons (Json.obj (.cons ("title") (.str e.title) (.cons ("url") (.str e.url) .nil)))
        (sourcesJson rest)

/-- The sources backfill after stage 3 (success or fallback): when the
record carries no nonempty sources array, it is set to the first five
evidence items as title and url pairs.  Reading a property of null throws;
writing a named property on a primitive throws; both surface through the
outer catch as a 500.  On an array the write is legal in JavaScript and
the named property is dropped by the JSON serialisation, so the array
passes through unchanged. -/
def backfillSources (fd : Json) (evidence : List Evidence) : Except String Json :=
  match fd with
  | .obj fs =>
      match jsonLookup fs ("sources") with
      | some (.arr (.cons _ _)) => .ok fd
      | _ => .ok (Json.obj (jsonSet fs ("sources") (.arr (sourcesJson (evidence.take 5)))))
  | .arr _ => .ok fd
  | .null => .error ("TypeError: cannot read properties of null")
  | _ => .error ("TypeError: cannot create property on primitive")

/-- The tail of the grounded branch: the backfill applied to the record,
with a thrown TypeError surfacing as a 500 through the outer catch. -/
def finishRecord (fd : Json) (evidence : List Evidence) : RouteResponse :=
  match backfillSources fd evidence with
  | .error msg => .serverError msg
  | .ok d => .ok d

/-- Stage 3 of the route, run only when evidence was gathered: the
grounding model call (a throw surfaces as a 500), the shared parse step,
the parse failure fallback onto the stage 1 record, then the sources
backfill. -/
def groundedStage (parse : String → Option Json) (o : Oracle) (parsed1 : Json)
    (evidence : List Evidence) : RouteResponse :=
  match o.grounded with
  | .error msg => .serverError msg
  | .ok c2 =>
      match parseModelText parse c2 with
      | some v => finishRecord v evidence
      | none =>
          match fallbackNote parsed1 with
          | .error msg => .serverError msg
          | .ok d => finishRecord d evidence

/-- The POST handler of the analyze route, with the search call it issues
recorded alongside the response.  Stage order follows the source: image
validation (400), credential check at request time (500), the stage 1
vision call and parse (a throw gives 500 via the outer catch, unparsable
output gives 502 with the raw text), the optional search (attempted only
with a truthy search credential and a nonempty query; any failure leaves
the evidence empty), and the grounded stage only when evidence was
gathered. -/
def POSTTraced (parse : String → Option Json) (env : Env) (form : FormDataModel)
    (o : Oracle) : RouteResponse × Option SearchRequest :=
  if !form.hasImageFile then (.badRequest ("No image supplied"), none)
  else if !isTruthyKey env.openaiKey then
    (.serverError ("Server misconfiguration: OPENAI_API_KEY is not set"), none)
  else
    match o.vision with
    | .error msg => (.serverError msg, none)
    | .ok content =>
        match parseModelText parse content with
        | none => (.badGateway ("Model returned non-JSON in stage 1") (contentOrDefault content), none)
        | some parsed1 =>
            let q := buildQueryFromLabel parsed1
            let searchCall : Option SearchRequest :=
              if isTruthyKey env.tavilyKey && q != "" then
                some { query := q, maxResults := 6, searchDepth := ("advanced") }
              else none
            let evidence : List Evidence :=
              match searchCall with
              | none => []
              | some _ =>
                  match o.search with
                  | .throws => []
                  | .notOk => []
                  | .ok results => (results.getD []).map normalizeResult
            match evidence with
            | [] => (.ok parsed1, searchCall)
            | e :: es => (groundedStage parse o parsed1 (e :: es), searchCall)

/-- The POST handler response alone. -/
def POST (parse : String → Option Json) (env : Env) (form : FormDataModel)
    (o : Oracle) : RouteResponse :=
  (POSTTraced parse env form o).1

/-! ## The submission client (src/app/page.tsx) -/

/-- One normalised grape entry as the client renders it. -/
structure GrapePart where
  variety : String
  percent : Option Int
deriving DecidableEq, Repr

/-- The per entry grape normalisation in ResultCard: a plain string keeps
the string as the variety with a null percent; any other value is read as
a partial object, the variety coerced with String(x ?? empty) and the
percent kept only when it is a number. -/
def normalizeGrape (g : Json) : GrapePart :=
  match g with
  | .str s => { variety := s, percent := none }
  | .obj fs =>
      { variety :=
          match jsonLookup fs ("variety") with
          | some .null => ""
          | some j => jsString j
          | none => ""
        percent :=
          match jsonLookup fs ("percent") with
          | some (.num n) => some n
          | _ => none }
  | _ => { variety := "", percent := none }

/-- Maps the grape normalisation over a `JsonList`. -/
def normalizeGrapeList : JsonList → List GrapePart
  | .nil => []
  | .cons g rest => normalizeGrape g :: normalizeGrapeList rest

/-- The grapes normalisation in ResultCard after the `?? []` default: an
array is mapped entrywise, anything else gives the empty list. -/
def normalizeGrapes (grapesRaw : Json) : List GrapePart :=
  match grapesRaw with
  | .arr gs => normalizeGrapeList gs
  | _ => []

/-- The client message for a rate limit or quota failure. -/
def creditsMessage : String :=
  ("⚠️ You’ve used up your OpenAI credits or hit a rate limit. Please check your OpenAI billing and try again later.")

/-- The client message for an authentication failure. -/
def authMessage : String :=
  ("⚠️ API key problem. Check your OPENAI_API_KEY in Vercel → Project → Settings → Environment Variables.")

/-- The client message asking for an image. -/
def uploadMessage : String :=
  ("⚠️ Please upload a wine label image before analyzing.")

/-- The initial message used when the thrown value is not an Error. -/
def genericMessage : String :=
  ("Something went wrong.")

/-- The rate limit marker test of onSubmit: 429 anywhere, or quota case
insensitively. -/
def hasRateMarker (msg : String) : Bool :=
  strContains msg ("429") || strContains (lowerStr msg) ("quota")

/-- The authentication marker test of onSubmit: 401 anywhere, or
unauthorized case insensitively. -/
def hasAuthMarker (msg : String) : Bool :=
  strContains msg ("401") || strContains (lowerStr msg) ("unauthorized")

/-- The missing image marker test of onSubmit, case insensitive. -/
def hasNoImageMarker (msg : String) : Bool :=
  strContains (lowerStr msg) ("no image supplied")

/-- The message classification chain of onSubmit: rate limit marker first,
then authentication, then missing image; a message with no marker is kept
unchanged. -/
def classifyErrorMessage (msg : String) : String :=
  if hasRateMarker msg then creditsMessage
  else if hasAuthMarker msg then authMessage
  else if hasNoImageMarker msg then uploadMessage
  else msg

/-- The displayed error text of onSubmit for a failed submission: the
message of the thrown Error when there is one, the generic text otherwise,
pushed through the classification chain. -/
def onSubmitErrorText (errMessage : Option String) : String :=
  classifyErrorMessage (errMessage.getD genericMessage)

/-- The safeStr helper of the page: strings pass through, null and
undefined display as the em dash placeholder, any other value is coerced
with String(v). -/
def safeStr : Option Json → String
  | some (.str s) => s
  | some .null => ("—")
  | some j => jsString j
  | none => ("—")

/-- The Field component: a blank value displays as the em dash
placeholder. -/
def displayOr (s : String) : String :=
  if s = "" then ("—") else s

/-- Property read that can throw: reading any property of null throws a
TypeError (the error case); primitives and arrays give undefined for the
record keys the page reads. -/
def jsGetEx (j : Json) (k : String) : Except String (Option Json) :=
  match j with
  | .null => .error ("TypeError: cannot read properties of null")
  | .obj fs => .ok (jsonLookup fs k)
  | _ => .ok none

/-- Total property read used after an `?? empty object` default, whose
receiver can no longer be null. -/
def jsGetField (j : Json) (k : String) : Option Json :=
  match j with
  | .obj fs => jsonLookup fs k
  | _ => none

/-- The `?? empty object` default applied to a read: null and undefined
become the empty object, everything else passes through. -/
def coalesceObj : Option Json → Json
  | none => Json.obj .nil
  | some .null => Json.obj .nil
  | some j => j

mutual
/-- Text produced when React renders a value as a child, as in the span
and list item interpolations of the page: strings pass through, numbers
print in decimal, null and booleans render as nothing, an array renders
its elements in order, and a plain object makes React throw, recorded as
the error case. -/
def reactChildText : Json → Except String String
  | .null => .ok ("")
  | .bool _ => .ok ("")
  | .num n => .ok (toString n)
  | .str s => .ok s
  | .arr xs => reactChildrenText xs
  | .obj _ => .error ("Error: Objects are not valid as a React child")
/-- Concatenated rendered text of an array of React children, in order,
the first throw aborting the render. -/
def reactChildrenText : JsonList → Except String String
  | .nil => .ok ("")
  | .cons x rest =>
      match reactChildText x with
      | .error e => .error e
      | .ok t =>
          match reactChildrenText rest with
          | .error e => .error e
          | .ok ts => .ok (t ++ ts)
termination_by structural l => l
end

/-- Keeps the truthy elements of a list, the filter(Boolean) step, and
renders each kept element as the text of its pill, in order; a kept
element React cannot render as a child aborts with its throw. -/
def pillTexts : JsonList → Except String (List String)
  | .nil => .ok []
  | .cons x rest =>
      if jsTruthy x then
        match reactChildText x with
        | .error e => .error e
        | .ok t =>
            match pillTexts rest with
            | .error e => .error e
            | .ok ts => .ok (t :: ts)
      else pillTexts rest

/-- The `(x ?? []).filter(Boolean)` step feeding PillList: undefined and
null default to the empty list, an array is filtered and rendered, and
calling filter on any other value throws a TypeError. -/
def pillItems : Option Json → Except String (List String)
  | none => .ok []
  | some .null => .ok []
  | some (.arr xs) => pillTexts xs
  | some _ => .error ("TypeError: filter is not a function")

/-- A truthy guarded text, the `x ? render : null` pattern used for the
finish and note lines: a falsy value renders nothing, a truthy value is
rendered as a React child and can therefore throw on an object. -/
def truthyText : Option Json → Except String (Option String)
  | some j =>
      if jsTruthy j then
        match reactChildText j with
        | .error e => .error e
        | .ok t => .ok (some t)
      else .ok none
  | none => .ok none

/-- Rendered texts of the caveat list items, in order and unfiltered; an
entry React cannot render as a child aborts with its throw. -/
def caveatTexts : JsonList → Except String (List String)
  | .nil => .ok []
  | .cons x rest =>
      match reactChildText x with
      | .error e => .error e
      | .ok t =>
          match caveatTexts rest with
          | .error e => .error e
          | .ok ts => .ok (t :: ts)

/-- The caveats block: rendered only from an array (the guard also checks
nonemptiness, which the list value carries), each entry as a child. -/
def caveatsList : Option Json → Except String (List String)
  | some (.arr xs) => caveatTexts xs
  | _ => .ok []

/-- Everything ResultCard extracts from the record for display: the label
scalars after their placeholders, the normalised grapes, the tasting note
lists, the WSET scalars, the aroma lists, the drink window scalars, the
price fields, and the caveats. -/
structure RenderedCard where
  producer : String
  wine : String
  appellation : String
  region : String
  country : String
  vintage : String
  grapes : List GrapePart
  nose : List String
  palate : List String
  finish : Option String
  sweetness : String
  acidity : String
  tannin : String
  body : String
  alcohol : String
  finishLength : String
  primary : List String
  secondary : List String
  tertiary : List String
  dwFrom : String
  dwTo : String
  peakFrom : String
  peakTo : String
  decant : String
  currency : String
  range : String
  confidence : String
  note : Option String
  caveats : List String
deriving DecidableEq, Repr

/-- The `?? []` default applied to the grapes read: null and undefined
become the empty array, everything else passes through (the array test is
in `normalizeGrapes`). -/
def coalesceArr : Option Json → Json
  | none => Json.arr .nil
  | some .null => Json.arr .nil
  | some j => j

/-- The price range cell: rendered from low and high only when both are
non null (and defined), otherwise the placeholder. -/
def priceRange (low high : Option Json) : String :=
  match low, high with
  | some .null, _ => ("—")
  | _, some .null => ("—")
  | some l, some h => jsString l ++ (" – ") ++ jsString h
  | _, _ => ("—")

/-- The vintage cell: String(rl.vintage) when vintage is neither null nor
undefined, otherwise the placeholder. -/
def vintageText (v : Option Json) : String :=
  match v with
  | some .null => ("—")
  | some j => jsString j
  | none => ("—")

/-- The body of ResultCard as a value: every read the component performs,
in source order, in the exception monad.  The only reads that can throw
are the property reads on the record itself when it is null, and the
filter(Boolean) calls on a non array tasting note or aroma field; every
scalar cell goes through safeStr (or its inline variant) and the Field
placeholder. -/
def ResultCard (data : Json) : Except String RenderedCard := do
  let rlRead ← jsGetEx data ("recognizedLabel")
  let rl := coalesceObj rlRead
  let tnRead ← jsGetEx data ("tastingNotes")
  let tn := coalesceObj tnRead
  let w2 := coalesceObj (jsGetField tn ("wsetLevel2"))
  let dwRead ← jsGetEx data ("drinkWindow")
  let dw := coalesceObj dwRead
  let peRead ← jsGetEx data ("priceEstimate")
  let pe := coalesceObj peRead
  let afRead ← jsGetEx data ("aromasAndFlavours")
  let af := coalesceObj afRead
  let grapesRead ← jsGetEx data ("grapes")
  let grapes := normalizeGrapes (coalesceArr grapesRead)
  let nose ← pillItems (jsGetField tn ("nose"))
  let palate ← pillItems (jsGetField tn ("palate"))
  let finish ← truthyText (jsGetField tn ("finish"))
  let primary ← pillItems (jsGetField af ("primary"))
  let secondary ← pillItems (jsGetField af ("secondary"))
  let tertiary ← pillItems (jsGetField af ("tertiary"))
  let note ← truthyText (jsGetField pe ("note"))
  let caveatsRead ← jsGetEx data ("caveats")
  let caveats ← caveatsList caveatsRead
  pure
    { producer := displayOr (safeStr (jsGetField rl ("producer")))
      wine := displayOr (safeStr (jsGetField rl ("wine")))
      appellation := displayOr (safeStr (jsGetField rl ("appellation")))
      region := displayOr (safeStr (jsGetField rl ("region")))
      country := displayOr (safeStr (jsGetField rl ("country")))
      vintage := displayOr (vintageText (jsGetField rl ("vintage")))
      grapes := grapes
      nose := nose
      palate := palate
      finish := finish
      sweetness := displayOr (safeStr (jsGetField w2 ("sweetness")))
      acidity := displayOr (safeStr (jsGetField w2 ("acidity")))
      tannin := displayOr (safeStr (jsGetField w2 ("tannin")))
      body := displayOr (safeStr (jsGetField w2 ("body")))
      alcohol := displayOr (safeStr (jsGetField w2 ("alcohol")))
      finishLength := displayOr (safeStr (jsGetField w2 ("finishLength")))
      primary := primary
      secondary := secondary
      tertiary := tertiary
      dwFrom := displayOr (safeStr (jsGetField dw ("from")))
      dwTo := displayOr (safeStr (jsGetField dw ("to")))
      peakFrom := displayOr (safeStr (jsGetField dw ("peakFrom")))
      peakTo := displayOr (safeStr (jsGetField dw ("peakTo")))
      decant := displayOr (safeStr (jsGetField dw ("decant")))
      currency := displayOr (safeStr (jsGetField pe ("currency")))
      range := displayOr (priceRange (jsGetField pe ("low")) (jsGetField pe ("high")))
      confidence := displayOr (safeStr (jsGetField pe ("confidence")))
      note := note
      caveats := caveats }

/-- What the viewer sees for a result: the rendered card, or a blank
page when an uncaught render error unmounts the tree. -/
inductive PageView where
  | card (c : RenderedCard)
  | blank (uncaught : String)
deriving DecidableEq, Repr

/-- The SafeResult component as React executes it.  The source wraps the
returned JSX in try and catch, but the JSX expression only creates an
element descriptor, which cannot throw; React invokes ResultCard later,
during reconciliation, outside that call stack, so the catch can never
fire and its crash notice branch is dead code.  With no error boundary
in the page, an error thrown while ResultCard renders is uncaught and
React unmounts the tree: the page goes blank. -/
def SafeResult (data : Json) : PageView :=
  match ResultCard data with
  | .ok c => .card c
  | .error e => .blank e

/-! ## A concrete JSON parser

The route calls the runtime JSON.parse, an external collaborator, so the
route embedding takes the parse function as a parameter and the theorems
quantify over it.  The witnesses need a concrete instance; `miniJsonParse`
below implements the fragment of JSON.parse the witnesses use (objects,
arrays, strings with simple escapes, integral numbers, true, false, null)
as a fuel bounded recursive descent parser.  It rejects what it does not
implement, which is all a parse failure needs. -/

/-- JSON interelement whitespace. -/
def isJsonWs (c : Char) : Bool :=
  c == ' ' || c == '\t' || c == '\n' || c == '\r'

/-- Skips interelement whitespace. -/
def skipJsonWs (cs : List Char) : List Char :=
  cs.dropWhile isJsonWs

/-- Digit run to a number: the accumulated value of the leading digits. -/
def digitsToNat (ds : List Char) : Nat :=
  ds.foldl (fun acc c => acc * 10 + (c.toNat - ('0').toNat)) 0

/-- Resolution of a string escape character. -/
def jsonEscape (c : Char) : Option Char :=
  if c == '\x22' then some '\x22'
  else if c == '\x5c' then some '\x5c'
  else if c == '/' then some '/'
  else if c == 'n' then some '\n'
  else if c == 't' then some '\t'
  else if c == 'r' then some '\r'
  else if c == 'b' then some '\x08'
  else if c == 'f' then some '\x0c'
  else none

/-- String body parser: consumes up to the closing quote, resolving
escapes, and returns the content with the rest of the input. -/
def parseStringBody (acc : List Char) : List Char → Option (String × List Char)
  | [] => none
  | '\x22' :: rest => some (String.mk acc.reverse, rest)
  | '\x5c' :: c :: rest =>
      match jsonEscape c with
      | some d => parseStringBody (d :: acc) rest
      | none => none
  | '\x5c' :: [] => none
  | c :: rest => parseStringBody (c :: acc) rest

/-- Digit run parser: at least one digit, value and rest. -/
def parseNatTok (cs : List Char) : Option (Nat × List Char) :=
  match cs.takeWhile Char.isDigit with
  | [] => none
  | ds => some (digitsToNat ds, cs.dropWhile Char.isDigit)

mutual
/-- Value parser, structural on the fuel. -/
def parseVal : Nat → List Char → Option (Json × List Char)
  | 0, _ => none
  | n + 1, cs =>
      match skipJsonWs cs with
      | '\x7b' :: rest =>
          (match skipJsonWs rest with
           | '\x7d' :: rest2 => some (.obj .nil, rest2)
           | rest2 => parseMembers n rest2 [])
      | '\x5b' :: rest =>
          (match skipJsonWs rest with
           | '\x5d' :: rest2 => some (.arr .nil, rest2)
           | rest2 => parseElems n rest2 [])
      | '\x22' :: rest => (parseStringBody [] rest).map (fun p => (.str p.1, p.2))
      | 't' :: 'r' :: 'u' :: 'e' :: rest => some (.bool true, rest)
      | 'f' :: 'a' :: 'l' :: 's' :: 'e' :: rest => some (.bool false, rest)
      | 'n' :: 'u' :: 'l' :: 'l' :: rest => some (.null, rest)
      | '\x2d' :: rest =>
          (parseNatTok rest).map (fun p => (.num (-(p.1 : Int)), p.2))
      | c :: rest =>
          if c.isDigit then (parseNatTok (c :: rest)).map (fun p => (.num (p.1 : Int), p.2))
          else none
      | [] => none

/-- Object member list parser, called after the opening brace of a
nonempty object: key, colon, value, then a comma or the closing brace. -/
def parseMembers : Nat → List Char → List (String × Json) → Option (Json × List Char)
  | 0, _, _ => none
  | n + 1, cs, acc =>
      match skipJsonWs cs with
      | '\x22' :: rest =>
          (match parseStringBody [] rest with
           | none => none
           | some (k, r1) =>
               match skipJsonWs r1 with
               | '\x3a' :: r2 =>
                   (match parseVal n r2 with
                    | none => none
                    | some (v, r3) =>
                        match skipJsonWs r3 with
                        | '\x2c' :: r4 => parseMembers n r4 (acc ++ [(k, v)])
                        | '\x7d' :: r4 => some (.obj (jfields (acc ++ [(k, v)])), r4)
                        | _ => none)
               | _ => none)
      | _ => none

/-- Array element list parser, called after the opening bracket of a
nonempty array: value, then a comma or the closing bracket. -/
def parseElems : Nat → List Char → List Json → Option (Json × List Char)
  | 0, _, _ => none
  | n + 1, cs, acc =>
      match parseVal n cs with
      | none => none
      | some (v, r1) =>
          match skipJsonWs r1 with
          | '\x2c' :: r2 => parseElems n r2 (acc ++ [v])
          | '\x5d' :: r2 => some (.arr (jlist (acc ++ [v])), r2)
          | _ => none
end

/-- The concrete parse function: a whole input parse with trailing
whitespace allowed, anything else rejected. -/
def miniJsonParse (s : String) : Option Json :=
  match parseVal (s.length + 1) s.data with
  | some (v, rest) => if skipJsonWs rest = [] then some v else none
  | none => none

/-! ## Observations on records used by the statements -/

/-- Whether a field list carries no nonempty sources array, the negation
of the keep condition of the backfill. -/
def sourcesNotNonempty (fs : JsonObj) : Bool :=
  match jsonLookup fs ("sources") with
  | some (.arr (.cons _ _)) => false
  | _ => true

/-- The number of entries in the sources array of a record, zero when the
record is not an object or carries no sources array. -/
def recordSourcesLen (j : Json) : Nat :=
  match j with
  | .obj fs =>
      match jsonLookup fs ("sources") with
      | some (.arr xs) => jlistLen xs
      | _ => 0
  | _ => 0

/-! ## Shared lemmas -/

/-- Writing one key leaves the lookup of every other key unchanged. -/
theorem jsonLookup_jsonSet_ne :
    ∀ (fs : JsonObj) (k : String) (v : Json) (key : String), key ≠ k →
      jsonLookup (jsonSet fs k v) key = jsonLookup fs key
  | .nil, k, v, key, hne => by
      simp only [jsonSet, jsonLookup]
      rw [if_neg (fun h => hne h.symm)]
  | .cons k0 v0 rest, k, v, key, hne => by
      by_cases h0 : k0 = k
      · subst h0
        simp only [jsonSet, if_pos rfl, jsonLookup]
        rw [if_neg (fun h => hne h.symm), if_neg (fun h => hne h.symm)]
      · simp only [jsonSet, if_neg h0, jsonLookup]
        by_cases h1 : k0 = key
        · simp [h1]
        · simp [h1, jsonLookup_jsonSet_ne rest k v key hne]
  termination_by structural fs => fs

/-- The backfilled sources list has exactly one entry per evidence item
taken. -/
theorem jlistLen_sourcesJson (l : List Evidence) :
    jlistLen (sourcesJson l) = l.length := by
  induction l with
  | nil => rfl
  | cons e rest ih => simp [sourcesJson, jlistLen, ih]

/-- A string with a nonempty left part stays nonempty under append. -/
theorem string_append_ne_empty (a b : String) (h : a ≠ "") : a ++ b ≠ "" := by
  intro hc
  apply h
  apply String.ext
  have hd := congrArg String.data hc
  rw [String.data_append] at hd
  exact (List.append_eq_nil.mp hd).1

/-- Decimal digit runs from the core printer are never empty. -/
theorem toDigitsCore_length_ge (b : Nat) :
    ∀ (f n : Nat) (l : List Char), (Nat.toDigitsCore b (f + 1) n l).length ≥ l.length + 1 := by
  intro f
  induction f with
  | zero =>
      intro n l
      simp only [Nat.toDigitsCore]
      split <;> simp [Nat.toDigitsCore]
  | succ f ih =>
      intro n l
      simp only [Nat.toDigitsCore]
      split
      · simp
      · calc l.length + 1 ≤ (Nat.digitChar (n % b) :: l).length + 1 := by simp
          _ ≤ (Nat.toDigitsCore b (f + 1) (n / b) (Nat.digitChar (n % b) :: l)).length := ih _ _

/-- The decimal print of a natural number is never the empty string. -/
theorem natRepr_ne_empty (n : Nat) : Nat.repr n ≠ "" := by
  intro hc
  have hd := congrArg String.data hc
  have hlen := congrArg List.length hd
  simp only [Nat.repr, List.asString] at hlen
  have := toDigitsCore_length_ge 10 n n []
  simp only [Nat.toDigits] at hlen
  omega

/-- The decimal print of an integer is never the empty string. -/
theorem intToString_ne_empty (n : Int) : toString n ≠ "" := by
  cases n with
  | ofNat m => exact natRepr_ne_empty m
  | negSucc m =>
      intro hc
      have hd := congrArg String.data hc
      rw [show (toString (Int.negSucc m)) = ("-") ++ Nat.repr (m + 1) from rfl,
        String.data_append] at hd
      exact absurd ((List.append_eq_nil.mp hd).1) (by simp [show ("-" : String).data = ['\x2d'] from rfl])

/-- Normal form of the route once stage 1 has produced a record: the
search condition, the evidence, and the grounded dispatch remain. -/
theorem POSTTraced_afterParse (parse : String → Option Json) (env : Env)
    (form : FormDataModel) (o : Oracle) (c : Option String) (parsed1 : Json)
    (himg : form.hasImageFile = true) (hkey : isTruthyKey env.openaiKey = true)
    (hvis : o.vision = .ok c) (hp : parseModelText parse c = some parsed1) :
    POSTTraced parse env form o =
      (let q := buildQueryFromLabel parsed1
       let searchCall : Option SearchRequest :=
         if isTruthyKey env.tavilyKey && q != "" then
           some { query := q, maxResults := 6, searchDepth := ("advanced") }
         else none
       let evidence : List Evidence :=
         match searchCall with
         | none => []
         | some _ =>
             match o.search with
             | .throws => []
             | .notOk => []
             | .ok results => (results.getD []).map normalizeResult
       match evidence with
       | [] => (.ok parsed1, searchCall)
       | e :: es => (groundedStage parse o parsed1 (e :: es), searchCall)) := by
  simp only [POSTTraced, himg, hkey, hvis, hp, Bool.not_true]
  rfl

/-! ## Claim theorems -/

/-- Claim C4: the route fails fast with 400 and the No image supplied
error for every request without an image payload; with 500 and the server
misconfiguration error whenever the model credential is not truthy at
request time, for any submitted image and oracle; and with 502 carrying
the raw response text whenever the stage 1 output does not parse after
fence stripping. -/
theorem failFastStatuses (parse : String → Option Json) (env : Env)
    (form : FormDataModel) (o : Oracle) :
    (form.hasImageFile = false →
       POST parse env form o = .badRequest (("No image supplied"))
       ∧ statusCode (POST parse env form o) = 400)
    ∧ (form.hasImageFile = true → isTruthyKey env.openaiKey = false →
       POST parse env form o = .serverError (("Server misconfiguration: OPENAI_API_KEY is not set"))
       ∧ statusCode (POST parse env form o) = 500)
    ∧ (∀ c, form.hasImageFile = true → isTruthyKey env.openaiKey = true →
       o.vision = .ok c → parseModelText parse c = none →
       POST parse env form o = .badGateway (("Model returned non-JSON in stage 1")) (contentOrDefault c)
       ∧ statusCode (POST parse env form o) = 502) := by
  refine ⟨fun h1 => ?_, fun h1 h2 => ?_, fun c h1 h2 h3 h4 => ?_⟩
  · have : POST parse env form o = .badRequest (("No image supplied")) := by
      simp [POST, POSTTraced, h1]
    exact ⟨this, by rw [this]; rfl⟩
  · have : POST parse env form o
        = .serverError (("Server misconfiguration: OPENAI_API_KEY is not set")) := by
      simp [POST, POSTTraced, h1, h2]
    exact ⟨this, by rw [this]; rfl⟩
  · have : POST parse env form o
        = .badGateway (("Model returned non-JSON in stage 1")) (contentOrDefault c) := by
      simp [POST, POSTTraced, h1, h2, h3, h4]
    exact ⟨this, by rw [this]; rfl⟩

/-- Witness for C4 at concrete requests: a formless request is a 400, a
keyless environment is a 500 for a request with an image, and a stage 1
response of plain text is a 502 carrying that text. -/
theorem failFastStatusesWitness :
    POST miniJsonParse { openaiKey := some (("k")), tavilyKey := none } { hasImageFile := false }
      { vision := .ok none, search := .throws, grounded := .ok none }
      = .badRequest (("No image supplied"))
    ∧ POST miniJsonParse { openaiKey := none, tavilyKey := none } { hasImageFile := true }
      { vision := .ok none, search := .throws, grounded := .ok none }
      = .serverError (("Server misconfiguration: OPENAI_API_KEY is not set"))
    ∧ POST miniJsonParse { openaiKey := some (("k")), tavilyKey := none } { hasImageFile := true }
      { vision := .ok (some (("not json"))), search := .throws, grounded := .ok none }
      = .badGateway (("Model returned non-JSON in stage 1")) (("not json")) := by
  refine ⟨?_, ?_, ?_⟩
  · exact ((failFastStatuses miniJsonParse { openaiKey := some (("k")), tavilyKey := none }
      { hasImageFile := false }
      { vision := .ok none, search := .throws, grounded := .ok none }).1 rfl).1
  · exact ((failFastStatuses miniJsonParse { openaiKey := none, tavilyKey := none }
      { hasImageFile := true }
      { vision := .ok none, search := .throws, grounded := .ok none }).2.1 rfl rfl).1
  · exact ((failFastStatuses miniJsonParse { openaiKey := some (("k")), tavilyKey := none }
      { hasImageFile := true }
      { vision := .ok (some (("not json"))), search := .throws, grounded := .ok none }).2.2
      (some (("not json"))) rfl rfl rfl rfl).1

/-- Claim C2: whenever stage 1 succeeded and no evidence can be gathered,
because the search credential is not truthy or the search call throws or
returns a non ok status, the route answers 200 with exactly the stage 1
record, unmodified; in particular its sources and priceEstimate are stage
1 own values. -/
theorem zeroEvidenceReturnsStageOne (parse : String → Option Json) (env : Env)
    (form : FormDataModel) (o : Oracle) (c : Option String) (parsed1 : Json)
    (himg : form.hasImageFile = true) (hkey : isTruthyKey env.openaiKey = true)
    (hvis : o.vision = .ok c) (hp : parseModelText parse c = some parsed1)
    (hzero : isTruthyKey env.tavilyKey = false ∨ o.search = .throws ∨ o.search = .notOk) :
    POST parse env form o = .ok parsed1
    ∧ statusCode (POST parse env form o) = 200 := by
  have hmain : POST parse env form o = .ok parsed1 := by
    rw [POST, POSTTraced_afterParse parse env form o c parsed1 himg hkey hvis hp]
    rcases hzero with hz | hz | hz
    · simp [hz]
    · cases hc : (isTruthyKey env.tavilyKey && (buildQueryFromLabel parsed1 != "")) <;>
        simp [hc, hz]
    · cases hc : (isTruthyKey env.tavilyKey && (buildQueryFromLabel parsed1 != "")) <;>
        simp [hc, hz]
  exact ⟨hmain, by rw [hmain]; rfl⟩

/-- Witness for C2 at a concrete request: no search credential, a stage 1
record with one identifying field, returned untouched with empty sources
and its own price estimate. -/
theorem zeroEvidenceReturnsStageOneWitness :
    POST miniJsonParse { openaiKey := some (("k")), tavilyKey := none } { hasImageFile := true }
      { vision := .ok (some (("\x7b\"recognizedLabel\":\x7b\"producer\":\"X\"\x7d\x7d"))),
        search := .throws, grounded := .ok none }
      = .ok (.obj (.cons ("recognizedLabel")
          (.obj (.cons ("producer") (.str ("X")) .nil)) .nil)) :=
  (zeroEvidenceReturnsStageOne miniJsonParse
      { openaiKey := some (("k")), tavilyKey := none } { hasImageFile := true }
      { vision := .ok (some (("\x7b\"recognizedLabel\":\x7b\"producer\":\"X\"\x7d\x7d"))),
        search := .throws, grounded := .ok none }
      (some (("\x7b\"recognizedLabel\":\x7b\"producer\":\"X\"\x7d\x7d")))
      (.obj (.cons ("recognizedLabel") (.obj (.cons ("producer") (.str ("X")) .nil)) .nil))
      rfl rfl rfl rfl (Or.inl rfl)).1

/-- Claim C10: absent or empty stage 1 content is defaulted to the empty
object text before parsing, so with a parse function that reads that text
as the empty object the request answers 200 with the empty record instead
of 502; and any parsed stage 1 value that yields no search query, in
particular null or a number, is returned as the record without any shape
validation. -/
theorem emptyContentDefaultsToEmptyObject (parse : String → Option Json) (env : Env)
    (form : FormDataModel) (o : Oracle)
    (himg : form.hasImageFile = true) (hkey : isTruthyKey env.openaiKey = true) :
    (∀ c, o.vision = .ok c → (c = none ∨ c = some ("")) →
       parse (("\x7b\x7d")) = some (.obj .nil) →
       POST parse env form o = .ok (.obj .nil)
       ∧ statusCode (POST parse env form o) = 200)
    ∧ (∀ c v, o.vision = .ok c → parseModelText parse c = some v →
       buildQueryFromLabel v = "" →
       POST parse env form o = .ok v)
    ∧ buildQueryFromLabel .null = ""
    ∧ (∀ n : Int, buildQueryFromLabel (.num n) = "") := by
  have part2 : ∀ c v, o.vision = .ok c → parseModelText parse c = some v →
      buildQueryFromLabel v = "" → POST parse env form o = .ok v := by
    intro c v hvis hp hq
    rw [POST, POSTTraced_afterParse parse env form o c v himg hkey hvis hp]
    simp [hq]
  refine ⟨fun c hvis hc hempty => ?_, part2, rfl, fun n => rfl⟩
  have hp : parseModelText parse c = some (.obj .nil) := by
    rcases hc with hc | hc <;> rw [hc] <;> exact hempty
  have hmain := part2 c (.obj .nil) hvis hp rfl
  exact ⟨hmain, by rw [hmain]; rfl⟩

/-- Witness for C10 at a concrete request: a vision response with no
content at all still answers 200 with the empty object record. -/
theorem emptyContentDefaultsWitness :
    POST miniJsonParse { openaiKey := some (("k")), tavilyKey := some (("t")) }
      { hasImageFile := true }
      { vision := .ok none, search := .throws, grounded := .ok none }
      = .ok (.obj .nil) :=
  ((emptyContentDefaultsToEmptyObject miniJsonParse
      { openaiKey := some (("k")), tavilyKey := some (("t")) } { hasImageFile := true }
      { vision := .ok none, search := .throws, grounded := .ok none }
      rfl rfl).1 none rfl (Or.inl rfl) rfl).1

/-- The trailing fence is removed whatever stands before it. -/
theorem stripSuffixFence_append (l : List Char) :
    stripSuffixFenceChars (l ++ ['\x60', '\x60', '\x60']) = l := by
  unfold stripSuffixFenceChars
  rw [List.reverse_append]
  show l.reverse.reverse = l
  exact List.reverse_reverse l

/-- Claim C5: wrapping a trimmed text in code fence markers, with the
json tag in front, and stripping reproduces the text exactly, so the
stripped form parses to whatever the unwrapped text parses to; and the
shared parse step of stages 1 and 3 applies exactly this stripping before
parsing, so a fenced model response parses like the bare text. -/
theorem fenceStripRoundTrip (t : String) (ht : jsTrim t = t) :
    stripCodeFences (("```json") ++ t ++ ("```")) = t
    ∧ (∀ parse : String → Option Json,
        parseModelText parse (some (("```json") ++ t ++ ("```"))) = parse t) := by
  have htr : jsTrimChars t.data = t.data := congrArg String.data ht
  have h1 : stripCodeFences (("```json") ++ t ++ ("```")) = t := by
    calc stripCodeFences (("```json") ++ t ++ ("```"))
        = String.mk (jsTrimChars (stripSuffixFenceChars (t.data ++ ['\x60', '\x60', '\x60']))) := rfl
      _ = String.mk (jsTrimChars t.data) := by rw [stripSuffixFence_append]
      _ = t := by rw [htr]
  refine ⟨h1, fun parse => ?_⟩
  have hne : (("```json") ++ t ++ ("```")) ≠ "" :=
    string_append_ne_empty _ _ (string_append_ne_empty _ _ (by decide))
  unfold parseModelText
  rw [show contentOrDefault (some (("```json") ++ t ++ ("```")))
      = ("```json") ++ t ++ ("```") from by simp [contentOrDefault, hne], h1]

/-- Witness for C5 at a concrete object text: the fenced form strips back
to the text and parses identically under the concrete parser. -/
theorem fenceStripRoundTripWitness :
    stripCodeFences (("```json") ++ ("\x7b\"a\":1\x7d") ++ ("```")) = ("\x7b\"a\":1\x7d")
    ∧ parseModelText miniJsonParse (some (("```json") ++ ("\x7b\"a\":1\x7d") ++ ("```")))
      = miniJsonParse (("\x7b\"a\":1\x7d")) :=
  ⟨(fenceStripRoundTrip ("\x7b\"a\":1\x7d") rfl).1,
   (fenceStripRoundTrip ("\x7b\"a\":1\x7d") rfl).2 miniJsonParse⟩

/-- The grape normalisation of a list of plain strings, entrywise. -/
theorem normalizeGrapeList_strings (xs : List String) :
    normalizeGrapeList (jlist (xs.map Json.str))
      = xs.map (fun s => { variety := s, percent := none }) := by
  induction xs with
  | nil => rfl
  | cons x rest ih =>
      simp only [List.map_cons, jlist, normalizeGrapeList, normalizeGrape, ih]

/-- Claim C7: the client normalisation turns a legacy grapes list of
plain strings into the structured entries with null percents, in order
and without error; and a structured entry whose percent is missing or not
a number normalises to a null percent. -/
theorem grapesNormalization :
    (∀ xs : List String,
       normalizeGrapes (.arr (jlist (xs.map Json.str)))
         = xs.map (fun s => { variety := s, percent := none }))
    ∧ (∀ fs : JsonObj, (∀ n : Int, jsonLookup fs ("percent") ≠ some (.num n)) →
       (normalizeGrape (.obj fs)).percent = none) := by
  constructor
  · intro xs
    show normalizeGrapeList (jlist (xs.map Json.str)) = _
    exact normalizeGrapeList_strings xs
  · intro fs h
    simp only [normalizeGrape]

/-- Witness for C7 at the concrete legacy list and at a structured entry
with a non numeric percent. -/
theorem grapesNormalizationWitness :
    normalizeGrapes (.arr (jlist ([("Merlot"), ("Cabernet Franc")].map Json.str)))
      = [{ variety := ("Merlot"), percent := none }, { variety := ("Cabernet Franc"), percent := none }]
    ∧ (normalizeGrape (.obj (.cons ("percent") (.str ("12")) .nil))).percent = none :=
  ⟨grapesNormalization.1 [("Merlot"), ("Cabernet Franc")],
   grapesNormalization.2 (.cons ("percent") (.str ("12")) .nil)
     (fun _ h => Json.noConfusion (Option.some.inj h))⟩

/-- Claim C8, amended: the classification chain maps a rate limit or
quota marker to the credits message, otherwise an authentication marker
to the credential message, otherwise a missing image marker to the upload
message; a message with no marker is displayed unchanged, and the generic
failure text appears only as the substitute when the thrown value carries
no message. -/
theorem errorClassificationMapping :
    (∀ msg,
      (hasRateMarker msg = true → classifyErrorMessage msg = creditsMessage)
      ∧ (hasRateMarker msg = false → hasAuthMarker msg = true →
          classifyErrorMessage msg = authMessage)
      ∧ (hasRateMarker msg = false → hasAuthMarker msg = false → hasNoImageMarker msg = true →
          classifyErrorMessage msg = uploadMessage)
      ∧ (hasRateMarker msg = false → hasAuthMarker msg = false → hasNoImageMarker msg = false →
          classifyErrorMessage msg = msg))
    ∧ onSubmitErrorText none = genericMessage := by
  refine ⟨fun msg => ⟨fun h1 => ?_, fun h1 h2 => ?_, fun h1 h2 h3 => ?_, fun h1 h2 h3 => ?_⟩, rfl⟩
  · simp [classifyErrorMessage, h1]
  · simp [classifyErrorMessage, h1, h2]
  · simp [classifyErrorMessage, h1, h2, h3]
  · simp [classifyErrorMessage, h1, h2, h3]

/-- Witness for C8 at concrete messages, one per arm of the chain. -/
theorem errorClassificationMappingWitness :
    classifyErrorMessage (("429")) = creditsMessage
    ∧ classifyErrorMessage (("401")) = authMessage
    ∧ classifyErrorMessage (("No image supplied")) = uploadMessage
    ∧ classifyErrorMessage (("network down")) = ("network down") :=
  ⟨(errorClassificationMapping.1 (("429"))).1 rfl,
   (errorClassificationMapping.1 (("401"))).2.1 rfl rfl,
   (errorClassificationMapping.1 (("No image supplied"))).2.2.1 rfl rfl rfl,
   (errorClassificationMapping.1 (("network down"))).2.2.2 rfl rfl rfl⟩

/-- Counterexample for C8 as stated: a failure message with no marker is
displayed as its own text, which is none of the four fixed client
messages, so the anything else arm does not yield a generic failure
message. -/
theorem errorClassificationCounterexample :
    hasRateMarker (("boom")) = false ∧ hasAuthMarker (("boom")) = false
    ∧ hasNoImageMarker (("boom")) = false
    ∧ onSubmitErrorText (some (("boom"))) = ("boom")
    ∧ (("boom") : String) ≠ genericMessage
    ∧ (("boom") : String) ≠ creditsMessage
    ∧ (("boom") : String) ≠ authMessage
    ∧ (("boom") : String) ≠ uploadMessage := by
  refine ⟨rfl, rfl, rfl, rfl, ?_, ?_, ?_, ?_⟩ <;> decide

/-- The search call recorded by the route once stage 1 has parsed. -/
theorem POSTTraced_searchCall (parse : String → Option Json) (env : Env)
    (form : FormDataModel) (o : Oracle) (c : Option String) (parsed1 : Json)
    (himg : form.hasImageFile = true) (hkey : isTruthyKey env.openaiKey = true)
    (hvis : o.vision = .ok c) (hp : parseModelText parse c = some parsed1) :
    (POSTTraced parse env form o).2 =
      if isTruthyKey env.tavilyKey && (buildQueryFromLabel parsed1 != "") then
        some { query := buildQueryFromLabel parsed1, maxResults := 6, searchDepth := ("advanced") }
      else none := by
  rw [POSTTraced_afterParse parse env form o c parsed1 himg hkey hvis hp]
  cases hc : (isTruthyKey env.tavilyKey && (buildQueryFromLabel parsed1 != "")) with
  | false =>
      simp only [hc, Bool.false_eq_true, if_false]
  | true =>
      simp only [hc, if_true]
      cases o.search with
      | throws => rfl
      | notOk => rfl
      | ok results =>
          cases hev : (results.getD []).map normalizeResult with
          | nil => simp [hev]
          | cons e es => simp [hev]

/-- The route reaches the grounded stage exactly on a truthy search
credential, a nonempty query, and a search success with at least one
result. -/
theorem POST_grounded (parse : String → Option Json) (env : Env)
    (form : FormDataModel) (o : Oracle) (c : Option String) (parsed1 : Json)
    (rs : List RawResult) (e : Evidence) (es : List Evidence)
    (himg : form.hasImageFile = true) (hkey : isTruthyKey env.openaiKey = true)
    (hvis : o.vision = .ok c) (hp : parseModelText parse c = some parsed1)
    (htav : isTruthyKey env.tavilyKey = true)
    (hq : buildQueryFromLabel parsed1 ≠ "")
    (hsearch : o.search = .ok (some rs))
    (hrs : rs.map normalizeResult = e :: es) :
    POST parse env form o = groundedStage parse o parsed1 (e :: es) := by
  rw [POST, POSTTraced_afterParse parse env form o c parsed1 himg hkey hvis hp]
  simp only [htav, Bool.true_and, bne_iff_ne, ne_eq, hq, not_false_eq_true, if_true,
    hsearch, Option.getD_some, hrs]

/-- Keeping a nonempty sources array: the backfill leaves the record
untouched. -/
theorem backfillSources_keep (fs : JsonObj) (x : Json) (xs : JsonList)
    (ev : List Evidence) (h : jsonLookup fs ("sources")  = some (.arr (.cons x xs))) :
    backfillSources (.obj fs) ev = .ok (.obj fs) := by
  simp [backfillSources, h]

/-- Filling absent, non array or empty sources: the backfill writes the
first five evidence items. -/
theorem backfillSources_fill (fs : JsonObj) (ev : List Evidence)
    (h : sourcesNotNonempty fs = true) :
    backfillSources (.obj fs) ev
      = .ok (.obj (jsonSet fs ("sources") (.arr (sourcesJson (ev.take 5))))) := by
  have h' : ∀ (x : Json) (xs : JsonList), jsonLookup fs ("sources") ≠ some (.arr (.cons x xs)) := by
    intro x xs hc
    unfold sourcesNotNonempty at h
    rw [hc] at h
    exact absurd h (by simp)
  simp only [backfillSources]

/-- The stage 3 fallback on a record whose price estimate is an object
with a string note: the diagnostic note is appended in place. -/
theorem fallbackNote_append (fs pf : JsonObj) (s0 : String)
    (hpe : jsonLookup fs ("priceEstimate") = some (.obj pf))
    (hnote : jsonLookup pf ("note") = some (.str s0)) :
    fallbackNote (.obj fs)
      = .ok (.obj (jsonSet fs ("priceEstimate")
          (.obj (jsonSet pf ("note") (.str (s0 ++ degradeNoteText)))))) := by
  by_cases hs : s0 = "" <;>
    simp [fallbackNote, hpe, hnote, jsTruthy, jsString, hs]

/-- Claim C1, amended: when the route reaches stage 3 and the grounding
response fails to parse, the 200 record is the stage 1 record with the
degradation notice appended to priceEstimate.note AND, the stage 1 record
carrying no nonempty sources array, with sources backfilled from the
first five evidence items; every key other than priceEstimate and sources
is unchanged. -/
theorem stageThreeParseFailureDegradation (parse : String → Option Json) (env : Env)
    (form : FormDataModel) (o : Oracle) (c1 : Option String) (fs pf : JsonObj)
    (s0 : String) (rs : List RawResult) (e : Evidence) (es : List Evidence)
    (c2 : Option String)
    (himg : form.hasImageFile = true) (hkey : isTruthyKey env.openaiKey = true)
    (hvis : o.vision = .ok c1) (hp : parseModelText parse c1 = some (.obj fs))
    (htav : isTruthyKey env.tavilyKey = true)
    (hq : buildQueryFromLabel (.obj fs) ≠ "")
    (hsearch : o.search = .ok (some rs)) (hrs : rs.map normalizeResult = e :: es)
    (hg : o.grounded = .ok c2) (hp2 : parseModelText parse c2 = none)
    (hpe : jsonLookup fs ("priceEstimate") = some (.obj pf))
    (hnote : jsonLookup pf ("note") = some (.str s0))
    (hsrc : sourcesNotNonempty fs = true) :
    POST parse env form o
      = .ok (.obj (jsonSet (jsonSet fs ("priceEstimate")
          (.obj (jsonSet pf ("note") (.str (s0 ++ degradeNoteText)))))
          ("sources") (.arr (sourcesJson ((e :: es).take 5)))))
    ∧ statusCode (POST parse env form o) = 200
    ∧ (∀ key, key ≠ ("priceEstimate") → key ≠ ("sources") →
        jsonLookup (jsonSet (jsonSet fs ("priceEstimate")
            (.obj (jsonSet pf ("note") (.str (s0 ++ degradeNoteText)))))
            ("sources") (.arr (sourcesJson ((e :: es).take 5)))) key
          = jsonLookup fs key) := by
  have hsrc2 : sourcesNotNonempty (jsonSet fs ("priceEstimate")
      (.obj (jsonSet pf ("note") (.str (s0 ++ degradeNoteText))))) = true := by
    unfold sourcesNotNonempty at hsrc ⊢
    rw [jsonLookup_jsonSet_ne fs _ _ _ (by decide)]
    exact hsrc
  have hmain : POST parse env form o
      = .ok (.obj (jsonSet (jsonSet fs ("priceEstimate")
          (.obj (jsonSet pf ("note") (.str (s0 ++ degradeNoteText)))))
          ("sources") (.arr (sourcesJson ((e :: es).take 5))))) := by
    rw [POST_grounded parse env form o c1 (.obj fs) rs e es himg hkey hvis hp htav hq hsearch hrs]
    rw [groundedStage, hg]
    simp only [hp2]
    rw [fallbackNote_append fs pf s0 hpe hnote]
    show finishRecord _ _ = _
    rw [finishRecord, backfillSources_fill _ _ hsrc2]
  refine ⟨hmain, by rw [hmain]; rfl, fun key h1 h2 => ?_⟩
  rw [jsonLookup_jsonSet_ne _ _ _ _ h2, jsonLookup_jsonSet_ne _ _ _ _ h1]

/-- Witness for the amended C1 at the concrete request of the
counterexample input: one identifying field, one evidence item, an
unparsable grounding response. -/
theorem stageThreeParseFailureDegradationWitness :
    POST miniJsonParse { openaiKey := some (("k")), tavilyKey := some (("t")) }
      { hasImageFile := true }
      { vision := .ok (some (("\x7b\"recognizedLabel\":\x7b\"producer\":\"X\"\x7d,\"priceEstimate\":\x7b\"note\":\"n0\"\x7d\x7d"))),
        search := .ok (some [{ title := some (("T")), url := ("U"), content := some (("S")) }]),
        grounded := .ok (some (("not json"))) }
      = .ok (.obj (jsonSet (jsonSet
          (.cons ("recognizedLabel") (.obj (.cons ("producer") (.str ("X")) .nil))
            (.cons ("priceEstimate") (.obj (.cons ("note") (.str ("n0")) .nil)) .nil))
          ("priceEstimate")
          (.obj (jsonSet (.cons ("note") (.str ("n0")) .nil) ("note")
            (.str (("n0") ++ degradeNoteText)))))
          ("sources") (.arr (sourcesJson
            ([({ title := ("T"), url := ("U"), snippet := ("S") } : Evidence)].take 5))))) :=
  (stageThreeParseFailureDegradation miniJsonParse
      { openaiKey := some (("k")), tavilyKey := some (("t")) } { hasImageFile := true }
      { vision := .ok (some (("\x7b\"recognizedLabel\":\x7b\"producer\":\"X\"\x7d,\"priceEstimate\":\x7b\"note\":\"n0\"\x7d\x7d"))),
        search := .ok (some [{ title := some (("T")), url := ("U"), content := some (("S")) }]),
        grounded := .ok (some (("not json"))) }
      (some (("\x7b\"recognizedLabel\":\x7b\"producer\":\"X\"\x7d,\"priceEstimate\":\x7b\"note\":\"n0\"\x7d\x7d")))
      (.cons ("recognizedLabel") (.obj (.cons ("producer") (.str ("X")) .nil))
        (.cons ("priceEstimate") (.obj (.cons ("note") (.str ("n0")) .nil)) .nil))
      (.cons ("note") (.str ("n0")) .nil) ("n0")
      [{ title := some (("T")), url := ("U"), content := some (("S")) }]
      { title := ("T"), url := ("U"), snippet := ("S") } []
      (some (("not json")))
      rfl rfl rfl rfl rfl (by decide) rfl rfl rfl rfl rfl rfl rfl).1

/-- Counterexample for C1 as stated: at this concrete request the
returned record does not equal the stage 1 record with only the note
appended, because the sources backfill also ran; the two records differ
in the sources field. -/
theorem stageThreeFallbackAlsoBackfills :
    POST miniJsonParse { openaiKey := some (("k")), tavilyKey := some (("t")) }
      { hasImageFile := true }
      { vision := .ok (some (("\x7b\"recognizedLabel\":\x7b\"producer\":\"X\"\x7d\x7d"))),
        search := .ok (some [{ title := some (("T")), url := ("U"), content := some (("S")) }]),
        grounded := .ok (some (("not json"))) }
      = .ok (.obj (.cons ("recognizedLabel") (.obj (.cons ("producer") (.str ("X")) .nil))
          (.cons ("priceEstimate") (.obj (.cons ("note") (.str degradeNoteText) .nil))
            (.cons ("sources") (.arr (.cons (.obj (.cons ("title") (.str ("T"))
              (.cons ("url") (.str ("U")) .nil))) .nil)) .nil))))
    ∧ (Json.obj (.cons ("recognizedLabel") (.obj (.cons ("producer") (.str ("X")) .nil))
          (.cons ("priceEstimate") (.obj (.cons ("note") (.str degradeNoteText) .nil))
            (.cons ("sources") (.arr (.cons (.obj (.cons ("title") (.str ("T"))
              (.cons ("url") (.str ("U")) .nil))) .nil)) .nil))))
      ≠ (Json.obj (.cons ("recognizedLabel") (.obj (.cons ("producer") (.str ("X")) .nil))
          (.cons ("priceEstimate") (.obj (.cons ("note") (.str degradeNoteText) .nil)) .nil))) :=
  ⟨rfl, fun h => absurd (congrArg recordSourcesLen h) (by decide)⟩

/-- Claim C3, amended: the code enforces no population rule and no cap on
a sources list the model itself emits; its only guarantee is the
backfill: when the grounded stage ran and the returned record carries no
nonempty sources array, sources is set to the first five gathered
evidence items as title and url pairs, hence at most five entries in that
case, while a nonempty model emitted sources list of any length is kept
as is. -/
theorem sourcesBackfillGuarantee (parse : String → Option Json) (env : Env)
    (form : FormDataModel) (o : Oracle) (c1 : Option String) (parsed1 : Json)
    (rs : List RawResult) (e : Evidence) (es : List Evidence) (c2 : Option String)
    (gfs : JsonObj)
    (himg : form.hasImageFile = true) (hkey : isTruthyKey env.openaiKey = true)
    (hvis : o.vision = .ok c1) (hp : parseModelText parse c1 = some parsed1)
    (htav : isTruthyKey env.tavilyKey = true)
    (hq : buildQueryFromLabel parsed1 ≠ "")
    (hsearch : o.search = .ok (some rs)) (hrs : rs.map normalizeResult = e :: es)
    (hg : o.grounded = .ok c2) (hp2 : parseModelText parse c2 = some (.obj gfs)) :
    (sourcesNotNonempty gfs = true →
       POST parse env form o
         = .ok (.obj (jsonSet gfs ("sources") (.arr (sourcesJson ((e :: es).take 5)))))
       ∧ jlistLen (sourcesJson ((e :: es).take 5)) ≤ 5)
    ∧ (∀ (x : Json) (xs : JsonList), jsonLookup gfs ("sources") = some (.arr (.cons x xs)) →
       POST parse env form o = .ok (.obj gfs)) := by
  have hbase : POST parse env form o = finishRecord (.obj gfs) (e :: es) := by
    rw [POST_grounded parse env form o c1 parsed1 rs e es himg hkey hvis hp htav hq hsearch hrs]
    rw [groundedStage, hg]
    simp only [hp2]
  constructor
  · intro hsrc
    refine ⟨?_, ?_⟩
    · rw [hbase, finishRecord, backfillSources_fill _ _ hsrc]
    · rw [jlistLen_sourcesJson, List.length_take]
      exact Nat.min_le_left _ _
  · intro x xs hx
    rw [hbase, finishRecord, backfillSources_keep _ x xs _ hx]

/-- Witness for the amended C3 at a concrete request: one evidence item,
a grounded record without sources, backfilled with that item. -/
theorem sourcesBackfillGuaranteeWitness :
    POST miniJsonParse { openaiKey := some (("k")), tavilyKey := some (("t")) }
      { hasImageFile := true }
      { vision := .ok (some (("\x7b\"recognizedLabel\":\x7b\"producer\":\"X\"\x7d\x7d"))),
        search := .ok (some [{ title := some (("T")), url := ("U"), content := some (("S")) }]),
        grounded := .ok (some (("\x7b\"abv\":13\x7d"))) }
      = .ok (.obj (jsonSet (.cons ("abv") (.num 13) .nil) ("sources")
          (.arr (sourcesJson
            ([({ title := ("T"), url := ("U"), snippet := ("S") } : Evidence)].take 5))))) :=
  ((sourcesBackfillGuarantee miniJsonParse
      { openaiKey := some (("k")), tavilyKey := some (("t")) } { hasImageFile := true }
      { vision := .ok (some (("\x7b\"recognizedLabel\":\x7b\"producer\":\"X\"\x7d\x7d"))),
        search := .ok (some [{ title := some (("T")), url := ("U"), content := some (("S")) }]),
        grounded := .ok (some (("\x7b\"abv\":13\x7d"))) }
      (some (("\x7b\"recognizedLabel\":\x7b\"producer\":\"X\"\x7d\x7d")))
      (.obj (.cons ("recognizedLabel") (.obj (.cons ("producer") (.str ("X")) .nil)) .nil))
      [{ title := some (("T")), url := ("U"), content := some (("S")) }]
      { title := ("T"), url := ("U"), snippet := ("S") } []
      (some (("\x7b\"abv\":13\x7d"))) (.cons ("abv") (.num 13) .nil)
      rfl rfl rfl rfl rfl (by decide) rfl rfl rfl rfl).1 rfl).1

/-- Counterexample for C3 as stated, in two concrete scenarios: first, a
stage 1 record already carrying a sources entry is returned with it while
the trace shows no search call was issued, so sources are populated
although the grounding stage never ran; second, a grounded response with
six sources is kept whole, so the returned list is not capped at five. -/
theorem sourcesPopulationCounterexample :
    POSTTraced miniJsonParse { openaiKey := some (("k")), tavilyKey := none }
      { hasImageFile := true }
      { vision := .ok (some (("\x7b\"sources\":[\x7b\"title\":\"t\",\"url\":\"u\"\x7d]\x7d"))),
        search := .throws, grounded := .ok none }
      = (.ok (.obj (.cons ("sources")
          (.arr (.cons (.obj (.cons ("title") (.str ("t")) (.cons ("url") (.str ("u")) .nil))) .nil)) .nil)), none)
    ∧ recordSourcesLen (.obj (.cons ("sources")
          (.arr (.cons (.obj (.cons ("title") (.str ("t")) (.cons ("url") (.str ("u")) .nil))) .nil)) .nil)) = 1
    ∧ POST miniJsonParse { openaiKey := some (("k")), tavilyKey := some (("t")) }
      { hasImageFile := true }
      { vision := .ok (some (("\x7b\"recognizedLabel\":\x7b\"producer\":\"X\"\x7d\x7d"))),
        search := .ok (some [{ title := some (("T")), url := ("U"), content := some (("S")) }]),
        grounded := .ok (some (("\x7b\"sources\":[1,2,3,4,5,6]\x7d"))) }
      = .ok (.obj (.cons ("sources")
          (.arr (jlist [.num 1, .num 2, .num 3, .num 4, .num 5, .num 6])) .nil))
    ∧ recordSourcesLen (.obj (.cons ("sources")
          (.arr (jlist [.num 1, .num 2, .num 3, .num 4, .num 5, .num 6])) .nil)) = 6 :=
  ⟨rfl, rfl, rfl, rfl⟩

/-- Claim C6: once stage 1 has parsed, the route issues a search call if
and only if the search credential is truthy and at least one identifying
field is present (kept by the truthiness filter); the issued query is the
space join of the kept identifying fields followed by the price keyword
and the fixed site restricted OR list, with at most six results
requested.  The identifying fields are assumed to have the contract
shapes, strings or numbers. -/
theorem searchAttemptCondition (parse : String → Option Json) (env : Env)
    (form : FormDataModel) (o : Oracle) (c : Option String) (parsed1 : Json)
    (himg : form.hasImageFile = true) (hkey : isTruthyKey env.openaiKey = true)
    (hvis : o.vision = .ok c) (hp : parseModelText parse c = some parsed1)
    (hshape : ∀ j ∈ keptParts parsed1, (∃ s, j = Json.str s) ∨ (∃ n : Int, j = Json.num n)) :
    ((POSTTraced parse env form o).2 ≠ none
       ↔ isTruthyKey env.tavilyKey = true ∧ keptParts parsed1 ≠ [])
    ∧ (∀ r, (POSTTraced parse env form o).2 = some r →
        r.query = jsJoin (" ") ((keptParts parsed1).map jsString) ++ priceSiteSuffix
        ∧ r.maxResults = 6) := by
  have hPartsNe : keptParts parsed1 ≠ [] →
      jsJoin (" ") ((keptParts parsed1).map jsString) ≠ "" := by
    intro hne
    obtain ⟨l, ls, hl⟩ := List.exists_cons_of_ne_nil hne
    have hmem : l ∈ keptParts parsed1 := by rw [hl]; exact List.mem_cons_self l ls
    have htr : jsTruthy l = true := by
      have hmem' := hmem
      unfold keptParts at hmem'
      exact List.of_mem_filter hmem'
    have hx : jsString l ≠ "" := by
      rcases hshape l hmem with ⟨s, rfl⟩ | ⟨n, rfl⟩
      · have hs : s ≠ "" := by simpa [jsTruthy] using htr
        simpa [jsString] using hs
      · exact intToString_ne_empty n
    rw [hl]
    cases ls with
    | nil => simpa [jsJoin] using hx
    | cons y ys =>
        simp only [List.map_cons, jsJoin]
        exact string_append_ne_empty _ _ (string_append_ne_empty _ _ hx)
  have hBQ : keptParts parsed1 ≠ [] →
      buildQueryFromLabel parsed1
        = jsJoin (" ") ((keptParts parsed1).map jsString) ++ priceSiteSuffix := by
    intro hne
    simp only [buildQueryFromLabel]
    rw [if_neg (hPartsNe hne)]
  have hA : buildQueryFromLabel parsed1 = "" ↔ keptParts parsed1 = [] := by
    constructor
    · intro hq
      by_contra hne
      rw [hBQ hne] at hq
      exact string_append_ne_empty _ _ (hPartsNe hne) hq
    · intro hl
      simp [buildQueryFromLabel, hl, jsJoin]
  have hsc := POSTTraced_searchCall parse env form o c parsed1 himg hkey hvis hp
  constructor
  · rw [hsc]
    constructor
    · intro hnn
      cases hc : (isTruthyKey env.tavilyKey && (buildQueryFromLabel parsed1 != "")) with
      | false => rw [hc] at hnn; simp at hnn
      | true =>
          rw [Bool.and_eq_true] at hc
          obtain ⟨h1, h2⟩ := hc
          have hbq : buildQueryFromLabel parsed1 ≠ "" := by simpa [bne_iff_ne] using h2
          exact ⟨h1, fun hl => hbq (hA.mpr hl)⟩
    · rintro ⟨ht, hl⟩
      have hbq : buildQueryFromLabel parsed1 ≠ "" := fun h => hl (hA.mp h)
      have hcond : (isTruthyKey env.tavilyKey && (buildQueryFromLabel parsed1 != "")) = true := by
        rw [ht]
        simpa [bne_iff_ne] using hbq
      rw [hcond]
      simp
  · intro r hr
    rw [hsc] at hr
    cases hc : (isTruthyKey env.tavilyKey && (buildQueryFromLabel parsed1 != "")) with
    | false => rw [hc] at hr; simp at hr
    | true =>
        rw [hc] at hr
        simp only [if_true] at hr
        rw [Bool.and_eq_true] at hc
        obtain ⟨h1, h2⟩ := hc
        have hbq : buildQueryFromLabel parsed1 ≠ "" := by simpa [bne_iff_ne] using h2
        have hne : keptParts parsed1 ≠ [] := fun hl => hbq (hA.mpr hl)
        rcases Option.some.inj hr with rfl
        exact ⟨hBQ hne, rfl⟩

/-- Witness for C6 at a concrete stage 1 record with a producer and a
vintage: the search call is issued and its query is the joined fields
with the price and site suffix. -/
theorem searchAttemptConditionWitness :
    (POSTTraced miniJsonParse { openaiKey := some (("k")), tavilyKey := some (("t")) }
      { hasImageFile := true }
      { vision := .ok (some (("\x7b\"recognizedLabel\":\x7b\"producer\":\"X\",\"vintage\":2015\x7d\x7d"))),
        search := .throws, grounded := .ok none }).2 ≠ none
    ∧ ({ query := ("X 2015") ++ priceSiteSuffix, maxResults := 6,
         searchDepth := ("advanced") } : SearchRequest).query
      = jsJoin (" ") ((keptParts (.obj (.cons ("recognizedLabel")
          (.obj (.cons ("producer") (.str ("X")) (.cons ("vintage") (.num 2015) .nil))) .nil))).map jsString)
        ++ priceSiteSuffix := by
  have hshape : ∀ j ∈ keptParts (Json.obj (.cons ("recognizedLabel")
      (.obj (.cons ("producer") (.str ("X")) (.cons ("vintage") (.num 2015) .nil))) .nil)),
      (∃ s, j = Json.str s) ∨ (∃ n : Int, j = Json.num n) := by
    intro j hj
    have hj' : j ∈ [Json.str ("X"), Json.num 2015] := hj
    rcases List.mem_cons.mp hj' with rfl | h2
    · exact Or.inl ⟨_, rfl⟩
    · rcases List.mem_cons.mp h2 with rfl | h3
      · exact Or.inr ⟨_, rfl⟩
      · exact absurd h3 (List.not_mem_nil _)
  have hthm := searchAttemptCondition miniJsonParse
      { openaiKey := some (("k")), tavilyKey := some (("t")) } { hasImageFile := true }
      { vision := .ok (some (("\x7b\"recognizedLabel\":\x7b\"producer\":\"X\",\"vintage\":2015\x7d\x7d"))),
        search := .throws, grounded := .ok none }
      (some (("\x7b\"recognizedLabel\":\x7b\"producer\":\"X\",\"vintage\":2015\x7d\x7d")))
      (.obj (.cons ("recognizedLabel")
        (.obj (.cons ("producer") (.str ("X")) (.cons ("vintage") (.num 2015) .nil))) .nil))
      rfl rfl rfl rfl hshape
  exact ⟨hthm.1.mpr ⟨rfl, List.cons_ne_nil _ _⟩, (hthm.2 _ rfl).1⟩

/-- Claim C9, code bug: the placeholder half of the claim holds, the
record missing every field renders with the em dash in every scalar cell
and empty lists elsewhere; but the catch and notice half is false of the
code.  At the failing record whose tasting note list is a number, the
card render throws a TypeError, and because the try and catch of
SafeResult wrap only the JSX element creation, never the deferred
ResultCard invocation, the throw is uncaught and the page goes blank
instead of showing the crash notice the source intends with its guard
comment and catch branch.  A record with an object entry in a pill list
likewise aborts, through the React child throw. -/
theorem defensiveRenderingCodeBug :
    ResultCard (Json.obj .nil) = .ok
      { producer := ("—"), wine := ("—"), appellation := ("—"), region := ("—"),
        country := ("—"), vintage := ("—"), grapes := [], nose := [], palate := [],
        finish := none, sweetness := ("—"), acidity := ("—"), tannin := ("—"),
        body := ("—"), alcohol := ("—"), finishLength := ("—"), primary := [],
        secondary := [], tertiary := [], dwFrom := ("—"), dwTo := ("—"),
        peakFrom := ("—"), peakTo := ("—"), decant := ("—"), currency := ("—"),
        range := ("—"), confidence := ("—"), note := none, caveats := [] }
    ∧ ResultCard (.obj (.cons ("tastingNotes") (.obj (.cons ("nose") (.num 5) .nil)) .nil))
      = .error ("TypeError: filter is not a function")
    ∧ SafeResult (.obj (.cons ("tastingNotes") (.obj (.cons ("nose") (.num 5) .nil)) .nil))
      = .blank ("TypeError: filter is not a function")
    ∧ SafeResult (.obj (.cons ("tastingNotes")
        (.obj (.cons ("nose") (.arr (.cons (.obj .nil) .nil)) .nil)) .nil))
      = .blank ("Error: Objects are not valid as a React child") :=
  ⟨rfl, rfl, rfl, rfl⟩

end WineVision
